import Mathlib

/-!
# Verification of the auth-system-api authorization and token layer

Shallow embedding, in Lean 4, of the authorization middleware
(`src/middleware/rbac.js`, file `authorize`), the authentication gate
(`src/middleware/auth.js`, file `authenticate`), the WFP cycle guard
(`src/middleware/wfpAuth.js`, `canManageCycle`), the JWT configuration
(`src/config/jwt.js`), the role constants (`src/config/constants.js`),
the User model role enumeration (`src/models/User.js`) and the
refresh-token exchange (`src/controllers/authController.js`).

JavaScript-specific semantics that matter to the control flow are kept:
`Math.max(...[])` is `-Infinity` (modelled by `none` in `Option Int`),
a lookup of a key missing from `roleHierarchy` is `undefined` and every
`<` comparison against `undefined` is `false`, and `||`/truthiness on
strings treats the empty string as falsy.
-/

namespace AuthSystem

/-- The role hierarchy object literal from the `authorize` middleware.
A role absent from the object yields JavaScript `undefined`, modelled
as `none`. -/
def roleHierarchy : String → Option Int
  | "super_admin" => some 100
  | "admin" => some 90
  | "dube_admin" => some 80
  | "wfp_admin" => some 80
  | "dube_viewer" => some 70
  | "wfp_viewer" => some 70
  | "dube_field_agent" => some 60
  | "wfp_health_officer" => some 60
  | "user" => some 0
  | _ => none

/-- JavaScript `Math.max(...list)`: `none` models `-Infinity` for the
empty spread. -/
def mathMax : List Int → Option Int
  | [] => none
  | x :: xs =>
    match mathMax xs with
    | none => some x
    | some m => some (max x m)

/-- JavaScript `a < b` where `a` may be `undefined` (`none` on the left,
always `false`) and `b` may be `-Infinity` (`none` on the right, always
`false`). -/
def jsLt (a : Option Int) (b : Option Int) : Bool :=
  match a, b with
  | none, _ => false
  | some _, none => false
  | some x, some y => decide (x < y)

/-- `const minRequiredLevel = Math.max(...allowedRoles.map(role =>
roleHierarchy[role] || 0))` from the `authorize` middleware. -/
def minRequiredLevel (allowedRoles : List String) : Option Int :=
  mathMax (allowedRoles.map (fun r => (roleHierarchy r).getD 0))

/-- The normalized principal the authentication gate attaches as
`req.user` (the fields `authorize` reads: `role` and `modules`,
the latter already defaulted by `req.user.modules || []`). -/
structure ReqUser where
  role : String
  modules : List String
  deriving DecidableEq, Repr

/-- The denial reasons of the `authorize` middleware, one per
`res.status(...).json(...)` return site. -/
inductive DenyReason where
  | authRequired
  | moduleNotAccessible (m : String)
  | insufficientPermissions
  | higherPrivilegesRequired
  deriving DecidableEq, Repr

/-- Outcome of the `authorize` middleware: `allow` is `next()`,
`deny s r` is `res.status(s).json(...)` with the message family `r`. -/
inductive AuthResult where
  | allow
  | deny (status : Nat) (reason : DenyReason)
  deriving DecidableEq, Repr

/-- `module && !userModules.includes(module)`: the guard of the module
isolation check. `none` models the `null` default; the empty string is
falsy in JavaScript. -/
def moduleBlocked (moduleScope : Option String) (userModules : List String) : Bool :=
  match moduleScope with
  | none => false
  | some m => if m = "" then false else !(decide (m ∈ userModules))

/-- `module && userRole === "admin"`: the post-role-list admin branch of
the `authorize` middleware. -/
def adminModuleBypass (moduleScope : Option String) (role : String) : Bool :=
  match moduleScope with
  | none => false
  | some m => if m = "" then false else decide (role = "admin")

/-- The `authorize(allowedRoles, module)` middleware from
`src/middleware/rbac.js`, applied to the request's `req.user`
(`none` when no authenticated user is attached). -/
def authorize (allowedRoles : List String) (moduleScope : Option String)
    (user : Option ReqUser) : AuthResult :=
  match user with
  | none => .deny 401 .authRequired
  | some u =>
    if u.role = "super_admin" then .allow
    else if moduleBlocked moduleScope u.modules = true then
      .deny 403 (.moduleNotAccessible (moduleScope.getD ""))
    else if allowedRoles ≠ [] ∧ u.role ∉ allowedRoles then
      .deny 403 .insufficientPermissions
    else if adminModuleBypass moduleScope u.role = true then .allow
    else if jsLt (roleHierarchy u.role) (minRequiredLevel allowedRoles) = true then
      .deny 403 .higherPrivilegesRequired
    else .allow

theorem jsLt_right_none (a : Option Int) : jsLt a none = false := by
  cases a <;> rfl

/-- Characterization of `authorize` returning `next()` for an
authenticated user. -/
theorem authorize_allow_iff (allowedRoles : List String) (moduleScope : Option String)
    (u : ReqUser) :
    authorize allowedRoles moduleScope (some u) = .allow ↔
      u.role = "super_admin" ∨
      (moduleBlocked moduleScope u.modules = false ∧
        ¬(allowedRoles ≠ [] ∧ u.role ∉ allowedRoles) ∧
        (adminModuleBypass moduleScope u.role = true ∨
          jsLt (roleHierarchy u.role) (minRequiredLevel allowedRoles) = false)) := by
  simp only [authorize]
  split_ifs with h1 h2 h3 h4 h5 <;> simp_all

/-- C1: for an authenticated principal that is not `super_admin`, a
requirement whose module scope names a module outside the principal's
module set is denied 403 `ModuleNotAccessible`, whatever the role list
is — the module-isolation check precedes the role-list and role-rank
comparisons. -/
theorem c1_module_isolation_precedes_rank (role : String) (mods : List String)
    (allowedRoles : List String) (m : String)
    (hrole : role ≠ "super_admin") (hm : m ∉ mods) (hne : m ≠ "") :
    authorize allowedRoles (some m) (some ⟨role, mods⟩) =
      .deny 403 (.moduleNotAccessible m) ∧
    authorize allowedRoles (some m) (some ⟨role, mods⟩) ≠ .allow := by
  have hblock : moduleBlocked (some m) mods = true := by
    simp [moduleBlocked, hne, hm]
  constructor
  · unfold authorize
    simp [hrole, hblock]
  · unfold authorize
    simp [hrole, hblock]

theorem c1_module_isolation_precedes_rank_witness :
    authorize ["wfp_admin", "wfp_viewer"] (some "wfp")
        (some ⟨"dube_admin", ["dube"]⟩) =
      .deny 403 (.moduleNotAccessible "wfp") :=
  (c1_module_isolation_precedes_rank "dube_admin" ["dube"]
    ["wfp_admin", "wfp_viewer"] "wfp" (by decide) (by decide) (by decide)).1

/-- C9: with an empty `allowedRoles` list, every authenticated principal
passes `authorize`, whatever its role (including plain `user`), provided
the module check passes or no module scope is declared: the role list
check is skipped for an empty list and `Math.max(...[])` is `-Infinity`,
so the rank comparison is vacuously passed. -/
theorem c9_empty_allowed_roles_wide_open (role : String) (mods : List String)
    (moduleScope : Option String)
    (hmod : moduleBlocked moduleScope mods = false) :
    authorize [] moduleScope (some ⟨role, mods⟩) = .allow := by
  simp only [authorize]
  have hlt : jsLt (roleHierarchy role) (minRequiredLevel []) = false := by
    simp [minRequiredLevel, mathMax, jsLt_right_none]
  split_ifs with h1 h2 h3 h4 h5 <;> simp_all

theorem c9_empty_allowed_roles_wide_open_witness :
    authorize [] (some "wfp") (some ⟨"user", ["wfp"]⟩) = .allow :=
  c9_empty_allowed_roles_wide_open "user" ["wfp"] (some "wfp") (by decide)

/-- C4 counterexample: a `wfp_admin` principal with module `wfp` in its
module set, facing a requirement scoped to `wfp` whose role list is the
non-empty `["wfp_viewer"]`, is denied 403 `InsufficientPermissions` by
`authorize` — there is no module-admin bypass in the code, so the claim
that such a principal is allowed fails at this input. -/
theorem c4_counterexample :
    authorize ["wfp_viewer"] (some "wfp") (some ⟨"wfp_admin", ["wfp"]⟩) =
      .deny 403 .insufficientPermissions ∧
    authorize ["wfp_viewer"] (some "wfp") (some ⟨"wfp_admin", ["wfp"]⟩) ≠
      .allow := by
  decide

/-- C4 (amended): a module-level admin role (`wfp_admin`) whose module
scope matches and is in the principal's module set is nevertheless denied
403 `InsufficientPermissions` whenever the requirement's `allowedRoles`
list is non-empty and does not name `wfp_admin`: the only admin shortcut
in `authorize` is for the global `admin` role, and it sits after the
role-list check. -/
theorem c4_module_admin_needs_listing (allowedRoles : List String) (m : String)
    (mods : List String)
    (hne : allowedRoles ≠ []) (hnotin : "wfp_admin" ∉ allowedRoles) (hm : m ∈ mods) :
    authorize allowedRoles (some m) (some ⟨"wfp_admin", mods⟩) =
      .deny 403 .insufficientPermissions := by
  have hblock : moduleBlocked (some m) mods = false := by
    by_cases h : m = "" <;> simp [moduleBlocked, h, hm]
  simp only [authorize]
  split_ifs with h1 h2 h3 <;> simp_all

theorem c4_module_admin_needs_listing_witness :
    authorize ["wfp_viewer", "wfp_health_officer"] (some "wfp")
        (some ⟨"wfp_admin", ["wfp", "dube"]⟩) =
      .deny 403 .insufficientPermissions :=
  c4_module_admin_needs_listing ["wfp_viewer", "wfp_health_officer"] "wfp"
    ["wfp", "dube"] (by decide) (by decide) (by decide)

theorem roleHierarchy_le_100 (r : String) (v : Int)
    (h : roleHierarchy r = some v) : v ≤ 100 := by
  unfold roleHierarchy at h
  split at h <;> simp_all <;> omega

theorem roleHierarchy_gt_90 (r : String) (v : Int)
    (h : roleHierarchy r = some v) (hv : 90 < v) : r = "super_admin" := by
  unfold roleHierarchy at h
  split at h <;> simp_all <;> omega

theorem jsLt_mono_false (a b : Int) (M : Option Int) (hab : b ≤ a)
    (h : jsLt (some b) M = false) : jsLt (some a) M = false := by
  cases M with
  | none => rfl
  | some m =>
    simp only [jsLt, decide_eq_false_iff_not, not_lt] at h ⊢
    omega

/-- C5 counterexample: `wfp_admin` outranks `wfp_viewer` (80 > 70) in the
role-rank table, the module scope `wfp` is satisfied by both, and the
requirement `allowedRoles = ["wfp_viewer"]` is satisfied by `wfp_viewer`;
yet `authorize` denies `wfp_admin`, because the exact role-list membership
check precedes any rank comparison. Rank monotonicity fails as claimed. -/
theorem c5_counterexample :
    roleHierarchy "wfp_admin" = some 80 ∧
    roleHierarchy "wfp_viewer" = some 70 ∧
    (70 : Int) < 80 ∧
    authorize ["wfp_viewer"] (some "wfp") (some ⟨"wfp_viewer", ["wfp"]⟩) =
      .allow ∧
    authorize ["wfp_viewer"] (some "wfp") (some ⟨"wfp_admin", ["wfp"]⟩) ≠
      .allow := by
  decide

/-- C5 (amended): rank monotonicity of `authorize` does hold under the
extra hypothesis forced by the counterexample — that the higher role is
itself named in the requirement's role list (or the list is empty): if
`rank A > rank B`, the module situation is identical for both, `A` is in
`allowedRoles` (or `allowedRoles = []`), and `authorize` allows role `B`,
then it also allows role `A`. -/
theorem c5_rank_monotone_when_listed (A B : String) (a b : Int)
    (mods : List String) (allowedRoles : List String) (moduleScope : Option String)
    (hA : roleHierarchy A = some a) (hB : roleHierarchy B = some b) (hab : b < a)
    (hlist : allowedRoles = [] ∨ A ∈ allowedRoles)
    (hallow : authorize allowedRoles moduleScope (some ⟨B, mods⟩) = .allow) :
    authorize allowedRoles moduleScope (some ⟨A, mods⟩) = .allow := by
  by_cases hAs : A = "super_admin"
  · simp [authorize, hAs]
  rw [authorize_allow_iff] at hallow ⊢
  rcases hallow with hBs | ⟨hmod, _, hrest⟩
  · exfalso
    have hBs' : B = "super_admin" := hBs
    rw [hBs'] at hB
    have hb100 : (100 : Int) = b := by simpa [roleHierarchy] using hB
    have := roleHierarchy_le_100 A a hA
    omega
  · right
    refine ⟨hmod, ?_, ?_⟩
    · rcases hlist with h | h
      · simp [h]
      · intro hcon
        exact hcon.2 h
    · rcases hrest with hadmin | hlt
      · exfalso
        have hBadmin : B = "admin" := by
          unfold adminModuleBypass at hadmin
          split at hadmin
          · exact absurd hadmin (by decide)
          · split at hadmin
            · exact absurd hadmin (by decide)
            · exact of_decide_eq_true hadmin
        rw [hBadmin] at hB
        have hb90 : (90 : Int) = b := by simpa [roleHierarchy] using hB
        exact hAs (roleHierarchy_gt_90 A a hA (by omega))
      · right
        rw [hB] at hlt
        rw [hA]
        exact jsLt_mono_false a b _ (le_of_lt hab) hlt

theorem c5_rank_monotone_when_listed_witness :
    authorize [] none (some ⟨"wfp_admin", []⟩) = .allow :=
  c5_rank_monotone_when_listed "wfp_admin" "wfp_viewer" 80 70 [] [] none
    (by decide) (by decide) (by decide) (Or.inl rfl) (by decide)

/-- `Object.values(ROLES)` from `src/config/constants.js`, which is the
`enum` constraint of the `role` path of the User schema: every stored
user role is one of these six strings. -/
def validRoles : List String :=
  ["admin", "dube_admin", "dube_viewer", "wfp_admin", "wfp_viewer", "user"]

/-- The `authorize` middleware with its `super_admin` branch deleted;
used to state that this branch is unreachable for roles the User model
can store. -/
def authorizeNoSuperBypass (allowedRoles : List String) (moduleScope : Option String)
    (user : Option ReqUser) : AuthResult :=
  match user with
  | none => .deny 401 .authRequired
  | some u =>
    if moduleBlocked moduleScope u.modules = true then
      .deny 403 (.moduleNotAccessible (moduleScope.getD ""))
    else if allowedRoles ≠ [] ∧ u.role ∉ allowedRoles then
      .deny 403 .insufficientPermissions
    else if adminModuleBypass moduleScope u.role = true then .allow
    else if jsLt (roleHierarchy u.role) (minRequiredLevel allowedRoles) = true then
      .deny 403 .higherPrivilegesRequired
    else .allow

/-- C10: the User model's role enumeration is the closed six-value set
of `Object.values(ROLES)`; it contains neither `super_admin` nor
`wfp_health_officer`, so for every principal whose role was stored
through the model, the `super_admin` unconditional-allow branch of
`authorize` is unreachable (its decision coincides with the function
with that branch removed) and no role list naming `wfp_health_officer`
can be matched by the principal's own role. -/
theorem c10_closed_role_enumeration :
    "super_admin" ∉ validRoles ∧ "wfp_health_officer" ∉ validRoles ∧
    ∀ role ∈ validRoles, role ≠ "super_admin" ∧ role ≠ "wfp_health_officer" ∧
      ∀ allowedRoles moduleScope mods,
        authorize allowedRoles moduleScope (some ⟨role, mods⟩) =
          authorizeNoSuperBypass allowedRoles moduleScope (some ⟨role, mods⟩) := by
  refine ⟨by decide, by decide, ?_⟩
  intro role hrole
  have hne : role ≠ "super_admin" ∧ role ≠ "wfp_health_officer" := by
    fin_cases hrole <;> exact ⟨by decide, by decide⟩
  refine ⟨hne.1, hne.2, ?_⟩
  intro allowedRoles moduleScope mods
  simp [authorize, authorizeNoSuperBypass, hne.1]

theorem c10_closed_role_enumeration_witness :
    authorize ["wfp_viewer"] (some "wfp") (some ⟨"admin", ["dube"]⟩) =
      authorizeNoSuperBypass ["wfp_viewer"] (some "wfp") (some ⟨"admin", ["dube"]⟩) :=
  (c10_closed_role_enumeration.2.2 "admin" (by decide)).2.2
    ["wfp_viewer"] (some "wfp") ["dube"]

/-! ## Token service: JWT signing and verification -/

/-- The JWT claim sets signed by `generateTokens` in
`src/controllers/authController.js`; claims not present in a given token
body are `none` (the refresh payload carries only `userId`). -/
structure JwtPayload where
  userId : Nat
  email : Option String := none
  role : Option String := none
  modules : Option (List String) := none
  deriving DecidableEq, Repr

/-- An idealized signed JWT: the signature is modelled by recording the
signing secret, so verification under a secret succeeds exactly for
tokens signed with that same secret (unforgeable-MAC idealization).
`exp` is the expiry instant in milliseconds since epoch. -/
structure SignedJwt where
  payload : JwtPayload
  secret : String
  exp : Nat
  deriving DecidableEq, Repr

/-- `jwt.sign(payload, secret, { expiresIn })`, with the expiry already
resolved to an absolute instant. -/
def jwtSign (p : JwtPayload) (secret : String) (exp : Nat) : SignedJwt :=
  ⟨p, secret, exp⟩

inductive JwtError where
  | expired
  | invalid
  deriving DecidableEq, Repr

/-- `jwt.verify(token, secret)` evaluated at time `now`: signature check
then expiry check. -/
def jwtVerify (t : SignedJwt) (secret : String) (now : Nat) :
    Except JwtError JwtPayload :=
  if t.secret = secret then
    if t.exp ≤ now then .error .expired else .ok t.payload
  else .error .invalid

/-- `"15m"`, in milliseconds. -/
def ACCESS_EXPIRY_MS : Nat := 15 * 60 * 1000

/-- `"7d"` / `7 * 24 * 60 * 60 * 1000`, in milliseconds. -/
def REFRESH_EXPIRY_MS : Nat := 7 * 24 * 60 * 60 * 1000

/-- A stored user document, restricted to the fields the auth layer
reads. -/
structure UserRecord where
  id : Nat
  email : String
  role : String
  modules : List String
  isActive : Bool
  deriving DecidableEq, Repr

/-- `generateTokens(user)` from `src/controllers/authController.js`:
the access token is signed with `process.env.JWT_SECRET` and carries
`{userId, email, role, modules}`; the refresh token is signed with
`process.env.JWT_REFRESH_SECRET` and carries only `{userId}`. -/
def generateTokens (jwtSecret jwtRefreshSecret : String) (user : UserRecord)
    (now : Nat) : SignedJwt × SignedJwt :=
  (jwtSign { userId := user.id, email := some user.email, role := some user.role,
             modules := some user.modules } jwtSecret (now + ACCESS_EXPIRY_MS),
   jwtSign { userId := user.id } jwtRefreshSecret (now + REFRESH_EXPIRY_MS))

/-- The three environment variables `JWT_CONFIG` in `src/config/jwt.js`
reads; `none` models an unset variable. -/
structure JwtEnv where
  JWT_ACCESS_SECRET : Option String := none
  JWT_SECRET : Option String := none
  JWT_REFRESH_SECRET : Option String := none
  deriving DecidableEq, Repr

/-- JavaScript `v || fallback` on an environment string (unset and empty
are falsy). -/
def envOr (v : Option String) (fallback : String) : String :=
  match v with
  | none => fallback
  | some s => if s = "" then fallback else s

/-- `JWT_CONFIG.ACCESS_SECRET`: `JWT_ACCESS_SECRET || JWT_SECRET ||
"your-access-secret-key-change-this-in-production"`. -/
def ACCESS_SECRET (e : JwtEnv) : String :=
  envOr e.JWT_ACCESS_SECRET
    (envOr e.JWT_SECRET "your-access-secret-key-change-this-in-production")

/-- `JWT_CONFIG.REFRESH_SECRET`: `JWT_REFRESH_SECRET || JWT_SECRET ||
"your-refresh-secret-key-change-this-in-production"`. -/
def REFRESH_SECRET (e : JwtEnv) : String :=
  envOr e.JWT_REFRESH_SECRET
    (envOr e.JWT_SECRET "your-refresh-secret-key-change-this-in-production")

/-- An environment in which only `JWT_SECRET` is set — a configuration
the code accepts (its validator at most prints a warning). -/
def sharedSecretEnv : JwtEnv := { JWT_SECRET := some "shared-secret" }

def exampleUser : UserRecord := ⟨1, "a@example.com", "user", [], true⟩

/-- C6 counterexample: with only `JWT_SECRET` configured, `JWT_CONFIG`
resolves the access and refresh secrets to the same string, and a token
signed as a refresh token verifies successfully under the access secret
(and the access token under the refresh secret): nothing in the token
encodes its kind, so verification does not enforce it. -/
theorem c6_counterexample :
    ACCESS_SECRET sharedSecretEnv = REFRESH_SECRET sharedSecretEnv ∧
    jwtVerify
        (generateTokens (ACCESS_SECRET sharedSecretEnv)
          (REFRESH_SECRET sharedSecretEnv) exampleUser 0).2
        (ACCESS_SECRET sharedSecretEnv) 1000 =
      .ok { userId := 1 } ∧
    jwtVerify
        (generateTokens (ACCESS_SECRET sharedSecretEnv)
          (REFRESH_SECRET sharedSecretEnv) exampleUser 0).1
        (REFRESH_SECRET sharedSecretEnv) 1000 =
      .ok { userId := 1, email := some "a@example.com", role := some "user",
            modules := some [] } :=
  ⟨rfl, rfl, rfl⟩

/-- C6 (amended): access and refresh tokens are signed with the values
of two distinct environment variables, and cross-kind verification is
rejected exactly when those two configured values differ: under
`accessSecret ≠ refreshSecret`, a refresh-signed token fails verification
under the access secret and an access-signed token fails under the
refresh secret, both with the invalid-signature error. -/
theorem c6_distinct_secrets_cross_kind_rejected (aS rS : String)
    (u : UserRecord) (now t : Nat) (h : aS ≠ rS) :
    jwtVerify (generateTokens aS rS u now).2 aS t = .error .invalid ∧
    jwtVerify (generateTokens aS rS u now).1 rS t = .error .invalid := by
  constructor <;> simp [generateTokens, jwtSign, jwtVerify, h, Ne.symm h]

theorem c6_distinct_secrets_cross_kind_rejected_witness :
    jwtVerify (generateTokens "access-secret" "refresh-secret" exampleUser 0).2
        "access-secret" 1000 = .error .invalid ∧
    jwtVerify (generateTokens "access-secret" "refresh-secret" exampleUser 0).1
        "refresh-secret" 1000 = .error .invalid :=
  c6_distinct_secrets_cross_kind_rejected "access-secret" "refresh-secret"
    exampleUser 0 1000 (by decide)

/-! ## Resource-scoped guard: canManageCycle -/

/-- The fields of `req.user` read by `canManageCycle`; `assignedCycles`
is optional because the guard probes for its presence
(`req.user.assignedCycles && ...`). -/
structure WfpUser where
  role : String
  assignedCycles : Option (List String)
  deriving DecidableEq, Repr

/-- Outcome of a guard middleware: `allow` is `next()`, `deny s` is
`res.status(s).json(...)`. -/
inductive GuardResult where
  | allow
  | deny (status : Nat)
  deriving DecidableEq, Repr

/-- JavaScript `a || b` where `a` is a string lookup (unset and empty
string are falsy). -/
def jsOrStr (a b : Option String) : Option String :=
  match a with
  | none => b
  | some s => if s = "" then b else some s

/-- `req.params[p] || req.body[p] || req.query[p]`. -/
def extractCycleId (params body query : Option String) : Option String :=
  jsOrStr (jsOrStr params body) query

/-- JavaScript truthiness of the extracted cycle id. -/
def truthyStr : Option String → Bool
  | none => false
  | some s => !(s == "")

/-- `canManageCycle(cycleIdParam)` from `src/middleware/wfpAuth.js`,
applied to the request's `req.user` and the three lookups of the cycle
id parameter. -/
def canManageCycle (user : Option WfpUser) (params body query : Option String) :
    GuardResult :=
  match user with
  | none => .deny 401
  | some u =>
    if u.role = "admin" then .allow
    else
      let cycleId := extractCycleId params body query
      if truthyStr cycleId = false then .allow
      else
        let isAssigned :=
          match u.assignedCycles with
          | none => false
          | some cs => decide (cycleId.getD "" ∈ cs)
        if u.role = "wfp_admin" ∨ isAssigned = true then .allow
        else .deny 403

/-- C8: the cycle guard allows an authenticated request exactly when the
principal's role is `admin` or `wfp_admin` or the extracted cycle id is
among the principal's `assignedCycles`; and when no (truthy) cycle id is
present in params, body or query, the request is always allowed. -/
theorem c8_cycle_guard_characterization (u : WfpUser)
    (params body query : Option String) :
    (truthyStr (extractCycleId params body query) = false →
      canManageCycle (some u) params body query = .allow) ∧
    (∀ cid, extractCycleId params body query = some cid → cid ≠ "" →
      (canManageCycle (some u) params body query = .allow ↔
        u.role = "admin" ∨ u.role = "wfp_admin" ∨
          cid ∈ u.assignedCycles.getD [])) := by
  obtain ⟨r, ac⟩ := u
  constructor
  · intro h
    simp only [canManageCycle]
    split_ifs <;> simp_all
  · intro cid hcid hne
    have htr : truthyStr (some cid) = true := by
      simp [truthyStr, hne]
    cases ac with
    | none =>
      simp only [canManageCycle, hcid, htr]
      split_ifs with h1 h2 h3 <;> simp_all
    | some cs =>
      simp only [canManageCycle, hcid, htr]
      split_ifs with h1 h2 h3 <;> simp_all

theorem c8_cycle_guard_characterization_witness :
    canManageCycle (some ⟨"wfp_viewer", some ["c1"]⟩) (some "c1") none none =
      .allow :=
  ((c8_cycle_guard_characterization ⟨"wfp_viewer", some ["c1"]⟩
      (some "c1") none none).2 "c1" (by decide) (by decide)).mpr
    (Or.inr (Or.inr (by decide)))

/-! ## Refresh-token exchange: store model and handler -/

/-- A stored Token document (`src/models/Token.js`), restricted to the
fields the refresh flow reads; `id` models the Mongo document identity
(`_id`) through which `tokenDoc.save()` writes back. -/
structure TokenRecord where
  id : Nat
  userId : Nat
  token : SignedJwt
  type : String
  expiresAt : Nat
  used : Bool
  deriving DecidableEq, Repr

/-- The persistent state the auth flows touch: the user collection, the
token collection and a fresh-document-id counter. -/
structure DB where
  users : List UserRecord
  tokens : List TokenRecord
  nextId : Nat
  deriving DecidableEq, Repr

/-- The `Token.findOne({ token, type: "refresh", used: false,
expiresAt: { $gt: new Date() } })` query predicate. -/
def refreshQuery (rt : SignedJwt) (now : Nat) (d : TokenRecord) : Bool :=
  d.token == rt && d.type == "refresh" && d.used == false &&
    decide (now < d.expiresAt)

theorem refreshQuery_true_iff (rt : SignedJwt) (now : Nat) (d : TokenRecord) :
    refreshQuery rt now d = true ↔
      d.token = rt ∧ d.type = "refresh" ∧ d.used = false ∧ now < d.expiresAt := by
  simp [refreshQuery, and_assoc]

/-- `saveRefreshToken(userId, refreshToken, ...)`: persists a new unused
refresh Token document expiring seven days out. -/
def saveRefreshToken (uid : Nat) (rt : SignedJwt) (now : Nat) (db : DB) : DB :=
  { db with
      tokens := db.tokens ++
        [⟨db.nextId, uid, rt, "refresh", now + REFRESH_EXPIRY_MS, false⟩],
      nextId := db.nextId + 1 }

/-- `tokenDoc.used = true; await tokenDoc.save()`: an unconditional
write-back addressed by document id — it does not re-check `used`. -/
def markUsed (docId : Nat) (db : DB) : DB :=
  { db with
      tokens := db.tokens.map
        (fun d => if d.id = docId then { d with used := true } else d) }

/-- The error responses of `AuthController.refreshToken`, one per return
site before the success path. -/
inductive RefreshError where
  | invalidToken
  | expiredOrInvalid
  | userNotFound
  deriving DecidableEq, Repr

/-- Outcomes of `AuthController.refreshToken`. `badRequest` is the 400
for a missing body field; the three errors are 401; `success` is the 200
response carrying the fresh access+refresh pair. -/
inductive RefreshResult where
  | badRequest
  | invalidToken
  | expiredOrInvalid
  | userNotFound
  | success (accessToken refreshToken : SignedJwt)
  deriving DecidableEq, Repr

def RefreshError.toResult : RefreshError → RefreshResult
  | .invalidToken => .invalidToken
  | .expiredOrInvalid => .expiredOrInvalid
  | .userNotFound => .userNotFound

/-- Phase 1 of the refresh handler — everything up to and including the
two awaited reads: verify the JWT, look up the unused unexpired token
document, look up the user. Pure reads, no state change. -/
def refreshLookup (refreshSecret : String) (now : Nat) (rt : SignedJwt)
    (db : DB) : Except RefreshError (TokenRecord × UserRecord) :=
  match jwtVerify rt refreshSecret now with
  | .error _ => .error .invalidToken
  | .ok decoded =>
    match db.tokens.find? (refreshQuery rt now) with
    | none => .error .expiredOrInvalid
    | some tokenDoc =>
      match db.users.find? (fun u => u.id == decoded.userId) with
      | none => .error .userNotFound
      | some user => .ok (tokenDoc, user)

/-- Phase 2 of the refresh handler — the writes: generate the new pair,
mark the old document used (unconditionally, by id) and persist the new
refresh document. Nothing here re-checks the `used` flag or the user's
`isActive`. -/
def refreshCommit (jwtSecret refreshSecret : String) (now : Nat)
    (tokenDoc : TokenRecord) (user : UserRecord) (db : DB) :
    RefreshResult × DB :=
  let pair := generateTokens jwtSecret refreshSecret user now
  (.success pair.1 pair.2,
   saveRefreshToken user.id pair.2 now (markUsed tokenDoc.id db))

/-- `AuthController.refreshToken` run to completion without interleaving:
lookup phase then commit phase. `none` models a request body without a
`refreshToken` field. -/
def refreshToken (jwtSecret refreshSecret : String) (now : Nat)
    (rt : Option SignedJwt) (db : DB) : RefreshResult × DB :=
  match rt with
  | none => (.badRequest, db)
  | some rt =>
    match refreshLookup refreshSecret now rt db with
    | .error e => (e.toResult, db)
    | .ok (tokenDoc, user) => refreshCommit jwtSecret refreshSecret now tokenDoc user db

/-- Sequential single-use of a refresh token: if a first exchange of
`rt` succeeds, a second sequential exchange of the same `rt` against the
resulting store is rejected with the 401 replay response, provided the
token collection satisfies its unique index on `token` (same token ⇒
same document), the old token was minted before `now1` (so its expiry
predates that of the replacement) and `rt` itself has not yet expired at
`now2`. -/
theorem refresh_sequential_replay_rejected
    (jS rS : String) (now1 now2 : Nat) (rt : SignedJwt) (db : DB)
    (huniq : ∀ d1 ∈ db.tokens, ∀ d2 ∈ db.tokens, d1.token = d2.token → d1.id = d2.id)
    (hiss : rt.exp < now1 + REFRESH_EXPIRY_MS)
    (hexp2 : now2 < rt.exp)
    (a r : SignedJwt) (db' : DB)
    (h1 : refreshToken jS rS now1 (some rt) db = (.success a r, db')) :
    (refreshToken jS rS now2 (some rt) db').1 = .expiredOrInvalid := by
  rcases hL : refreshLookup rS now1 rt db with e | ⟨doc, user⟩
  · simp only [refreshToken, hL] at h1
    cases e <;> simp [RefreshError.toResult] at h1
  simp only [refreshToken, hL] at h1
  rcases hver : jwtVerify rt rS now1 with err | decoded
  · simp [refreshLookup, hver] at hL
  have hsec : rt.secret = rS := by
    by_cases hs : rt.secret = rS
    · exact hs
    · simp [jwtVerify, hs] at hver
  rcases hfind : db.tokens.find? (refreshQuery rt now1) with _ | tokenDoc
  · simp [refreshLookup, hver, hfind] at hL
  rcases hufind : db.users.find? (fun u => u.id == decoded.userId) with _ | u0
  · simp [refreshLookup, hver, hfind, hufind] at hL
  have hL' : tokenDoc = doc ∧ u0 = user := by
    simpa [refreshLookup, hver, hfind, hufind] using hL
  obtain ⟨hd, hu⟩ := hL'
  subst hd
  subst hu
  have hq : refreshQuery rt now1 tokenDoc = true := List.find?_some hfind
  have hmem : tokenDoc ∈ db.tokens := List.mem_of_find?_eq_some hfind
  simp only [refreshCommit, Prod.mk.injEq] at h1
  obtain ⟨-, hdb⟩ := h1
  subst hdb
  have hle2 : ¬ (rt.exp ≤ now2) := by omega
  have hfind2 :
      ((saveRefreshToken u0.id (generateTokens jS rS u0 now1).2 now1
        (markUsed tokenDoc.id db)).tokens).find? (refreshQuery rt now2) = none := by
    rw [List.find?_eq_none]
    intro x hx
    simp only [saveRefreshToken, markUsed, List.mem_append, List.mem_map,
      List.mem_singleton] at hx
    rcases hx with ⟨d, hdmem, hfd⟩ | hx
    · subst hfd
      by_cases hid : d.id = tokenDoc.id
      · simp [refreshQuery, hid]
      · simp only [if_neg hid]
        intro hcontr
        have hdt : d.token = rt := ((refreshQuery_true_iff rt now2 d).mp hcontr).1
        have hdoct : tokenDoc.token = rt :=
          ((refreshQuery_true_iff rt now1 tokenDoc).mp hq).1
        exact hid (huniq d hdmem tokenDoc hmem (hdt.trans hdoct.symm))
    · subst hx
      intro hcontr
      have hnewt : (generateTokens jS rS u0 now1).2 = rt := by
        simpa using ((refreshQuery_true_iff rt now2 _).mp hcontr).1
      have hexp : now1 + REFRESH_EXPIRY_MS = rt.exp := by
        have := congrArg SignedJwt.exp hnewt
        simpa [generateTokens, jwtSign] using this
      omega
  simp [refreshToken, refreshLookup, jwtVerify, hsec, hle2, hfind2,
    RefreshError.toResult]

/-- The concrete replay scenario: user 1 holds the refresh token `rt0`,
recorded unused as document 0. -/
def rt0 : SignedJwt := jwtSign { userId := 1 } "refresh-secret" 500000000

/-- The access-token claim set `generateTokens` signs for user 1. -/
def accessPayload1 : JwtPayload :=
  { userId := 1, email := some "a@example.com", role := some "user",
      modules := some [] }

def tok0 : TokenRecord := ⟨0, 1, rt0, "refresh", 604800000, false⟩

def db0 : DB := ⟨[exampleUser], [tok0], 1⟩

/-- C2: sequentially, exchanging `rt0` twice succeeds exactly once — but
the handler is not atomic: its read phase (`findOne` on `used: false`)
and write phase (`tokenDoc.save()`, an unconditional write-back) are
separate awaited steps, so in the interleaving where request B's read
happens before request A's write both exchanges of the same token
succeed, contradicting the claimed concurrent single-use. -/
theorem c2_refresh_replay_race :
    (refreshToken "access-secret" "refresh-secret" 100 (some rt0) db0).1 =
      .success (jwtSign accessPayload1 "access-secret" 900100)
        (jwtSign { userId := 1 } "refresh-secret" 604800100) ∧
    (refreshToken "access-secret" "refresh-secret" 200 (some rt0)
        (refreshToken "access-secret" "refresh-secret" 100 (some rt0) db0).2).1 =
      .expiredOrInvalid ∧
    refreshLookup "refresh-secret" 100 rt0 db0 = .ok (tok0, exampleUser) ∧
    refreshLookup "refresh-secret" 150 rt0 db0 = .ok (tok0, exampleUser) ∧
    (refreshCommit "access-secret" "refresh-secret" 150 tok0 exampleUser
        (refreshCommit "access-secret" "refresh-secret" 100 tok0 exampleUser
          db0).2).1 =
      .success (jwtSign accessPayload1 "access-secret" 900150)
        (jwtSign { userId := 1 } "refresh-secret" 604800150) :=
  ⟨rfl, rfl, rfl, rfl, rfl⟩

/-- C7 counterexample: exchanging an already-used refresh token is
rejected 401 but performs no defensive revocation — the store is
returned unchanged and the subject's other outstanding refresh
credential (document 1) is still there unused. -/
def rtUsed : SignedJwt := jwtSign { userId := 7 } "refresh-secret" 700000000

def rtOther : SignedJwt := jwtSign { userId := 7 } "refresh-secret" 800000000

def userSeven : UserRecord := ⟨7, "b@example.com", "user", [], true⟩

def dbReplay : DB :=
  ⟨[userSeven],
   [⟨0, 7, rtUsed, "refresh", 900000000, true⟩,
    ⟨1, 7, rtOther, "refresh", 900000000, false⟩], 2⟩

theorem c7_counterexample :
    (refreshToken "access-secret" "refresh-secret" 100 (some rtUsed) dbReplay).1 =
      .expiredOrInvalid ∧
    (refreshToken "access-secret" "refresh-secret" 100 (some rtUsed) dbReplay).2 =
      dbReplay ∧
    (⟨1, 7, rtOther, "refresh", 900000000, false⟩ : TokenRecord) ∈
      (refreshToken "access-secret" "refresh-secret" 100 (some rtUsed)
        dbReplay).2.tokens :=
  ⟨rfl, rfl, by decide⟩

/-- C7 (amended): a refresh attempt that ends in the 401
expired-or-invalid response (the replay path included) leaves the stores
exactly as they were: no revocation of the subject's remaining refresh
chain takes place. -/
theorem c7_no_defensive_revocation (jS rS : String) (now : Nat)
    (rt : SignedJwt) (db : DB)
    (h : (refreshToken jS rS now (some rt) db).1 = .expiredOrInvalid) :
    (refreshToken jS rS now (some rt) db).2 = db := by
  rcases hL : refreshLookup rS now rt db with e | ⟨doc, user⟩
  · simp [refreshToken, hL]
  · simp [refreshToken, hL, refreshCommit] at h

theorem c7_no_defensive_revocation_witness :
    (refreshToken "access-secret" "refresh-secret" 100 (some rtUsed)
      dbReplay).2 = dbReplay :=
  c7_no_defensive_revocation "access-secret" "refresh-secret" 100 rtUsed
    dbReplay rfl

/-! ## Authentication gate -/

/-- The principal `authenticate` attaches to `req.user` on success. -/
structure AttachedUser where
  userId : Nat
  email : String
  role : String
  modules : List String
  deriving DecidableEq, Repr

/-- The rejection sites of the `authenticate` middleware. -/
inductive GateDeny where
  | noToken
  | tokenExpired
  | invalidToken
  | userNotFound
  | accountDeactivated
  deriving DecidableEq, Repr

/-- The HTTP status each rejection site responds with: everything is 401
except the deactivated account, which is 403. -/
def GateDeny.status : GateDeny → Nat
  | .noToken => 401
  | .tokenExpired => 401
  | .invalidToken => 401
  | .userNotFound => 401
  | .accountDeactivated => 403

inductive GateResult where
  | deny (d : GateDeny)
  | ok (user : AttachedUser)
  deriving DecidableEq, Repr

/-- The `authenticate` middleware: extract the bearer token (`none`
models a missing or non-`Bearer` Authorization header), verify it with
`JWT_SECRET`, load the user, reject a deactivated account, else attach
the principal. -/
def authenticate (jwtSecret : String) (now : Nat) (bearer : Option SignedJwt)
    (users : List UserRecord) : GateResult :=
  match bearer with
  | none => .deny .noToken
  | some tok =>
    match jwtVerify tok jwtSecret now with
    | .error .expired => .deny .tokenExpired
    | .error .invalid => .deny .invalidToken
    | .ok decoded =>
      match users.find? (fun u => u.id == decoded.userId) with
      | none => .deny .userNotFound
      | some user =>
        if user.isActive = false then .deny .accountDeactivated
        else .ok ⟨user.id, user.email, user.role, user.modules⟩

/-- The gate half of C3, in general form: a valid, unexpired access
token for a stored identity with `isActive = false` is rejected with the
403 deactivated-account response. -/
theorem authenticate_inactive_denies_403 (jwtSecret : String) (now : Nat)
    (tok : SignedJwt) (users : List UserRecord) (u : UserRecord)
    (hsec : tok.secret = jwtSecret) (hexp : now < tok.exp)
    (hfind : users.find? (fun v => v.id == tok.payload.userId) = some u)
    (hinact : u.isActive = false) :
    authenticate jwtSecret now (some tok) users = .deny .accountDeactivated := by
  have hle : ¬ (tok.exp ≤ now) := by omega
  simp [authenticate, jwtVerify, hsec, hle, hfind, hinact]

/-- The concrete inactive identity of the C3 scenario: user 9 is
deactivated but holds a valid unexpired access token and a stored,
unused, unexpired refresh token. -/
def inactiveUser : UserRecord := ⟨9, "c@example.com", "wfp_viewer", ["wfp"], false⟩

/-- The access-token claim set `generateTokens` signs for user 9. -/
def accessPayload9 : JwtPayload :=
  { userId := 9, email := some "c@example.com", role := some "wfp_viewer",
      modules := some ["wfp"] }

def accessTok9 : SignedJwt := jwtSign accessPayload9 "access-secret" 900000

def refreshTok9 : SignedJwt := jwtSign { userId := 9 } "refresh-secret" 604800000

def dbInactive : DB :=
  ⟨[inactiveUser], [⟨0, 9, refreshTok9, "refresh", 604800000, false⟩], 1⟩

/-- C3: for the deactivated user 9, the Authentication Gate does reject
a perfectly valid unexpired access token with the 403 deactivated
response — but the refresh-token exchange has no `isActive` check at
all: it happily issues a fresh access+refresh pair for the same
deactivated identity, contradicting the claim that every authenticated
operation is blocked. -/
theorem c3_inactive_gate_blocks_but_refresh_issues :
    authenticate "access-secret" 100 (some accessTok9) dbInactive.users =
      .deny .accountDeactivated ∧
    GateDeny.accountDeactivated.status = 403 ∧
    (refreshToken "access-secret" "refresh-secret" 100 (some refreshTok9)
        dbInactive).1 =
      .success (jwtSign accessPayload9 "access-secret" 900100)
        (jwtSign { userId := 9 } "refresh-secret" 604800100) :=
  ⟨rfl, rfl, rfl⟩

end AuthSystem
